import Mathlib

/-!
Verification of the aggregation/normalization pipeline of a Hugging Face Hub
search app (`src/app.py`): the normalizer `search_hub`, the link formatting of
`format_link`, the aggregator `SwarmyTime`, and the row-selection guard of
`load_metadata`, shallowly embedded in Lean.

Python dicts produced by the pipeline are embedded as an `Item` structure in
which a field of value `none` means the corresponding key is absent from the
dict (`item.get(k, d)` becomes `Option.getD`, `k in item` becomes `isSome`).
-/

/-- The three searchable item categories of the hub. -/
inductive Kind where
  | Models
  | Datasets
  | Spaces
deriving DecidableEq, BEq, Repr

/-- A record dict as built by `search_hub` or handed to `SwarmyTime`.
Each field models one dict key; `none` means the key is absent. -/
structure Item where
  id : Option String := none
  author : Option String := none
  downloads : Option Nat := none
  link : Option String := none
  modelId : Option String := none
  number : Option Nat := none
deriving DecidableEq, Repr

/-- A raw model result from `api.list_models` (fields read by `search_hub`). -/
structure RawModel where
  modelId : String
  author : String
  downloads : Nat
deriving DecidableEq, Repr

/-- A raw dataset result from `api.list_datasets` (fields read by `search_hub`). -/
structure RawDataset where
  id : String
  author : String
  downloads : Nat
deriving DecidableEq, Repr

/-- A raw space result from `api.list_spaces` (fields read by `search_hub`).
Note `search_hub` reads no downloads field for spaces. -/
structure RawSpace where
  id : String
  author : String
deriving DecidableEq, Repr

/-- The remote catalog, modelling the result sets the `HfApi` calls return
for the current query. -/
structure HfApi where
  models : List RawModel := []
  datasets : List RawDataset := []
  spaces : List RawSpace := []
deriving DecidableEq, Repr

/-- Auxiliary for Python substring containment: does `hay` start with `needle`? -/
def charsStartWith : List Char → List Char → Bool
  | [], _ => true
  | _ :: _, [] => false
  | a :: as, b :: bs => a == b && charsStartWith as bs

/-- Auxiliary: does `hay` contain `needle` as a contiguous sublist? -/
def charsContain : List Char → List Char → Bool
  | needle, [] => needle.isEmpty
  | needle, c :: t => charsStartWith needle (c :: t) || charsContain needle t

/-- Python `needle in hay` on strings (substring containment). -/
def pyIn (needle hay : String) : Bool :=
  charsContain needle.data hay.data

/-- Numbering loop of `search_hub` (lines 22-24): `for i, item in
enumerate(data, 1): item['number'] = i`, starting the counter at `k`.
The `formatted_link` presentation field set alongside is not modelled
(only its link derivation, see `readme_link`). -/
def numberFrom : Nat → List Item → List Item
  | _, [] => []
  | k, x :: xs => { x with number := some k } :: numberFrom (k + 1) xs

/-- The normalizer `search_hub` (app.py lines 7-26): builds one uniform record
per raw result of the requested category, deriving the canonical link, then
numbers the records from 1. The query only selects the remote result set,
which is the `api` parameter here. -/
def search_hub (api : HfApi) (query searchType : String) : List Item :=
  let _ := query
  let data : List Item :=
    if searchType = "Models" then
      api.models.map fun m =>
        { id := some m.modelId, author := some m.author,
          downloads := some m.downloads,
          link := some ("https://huggingface.co/" ++ m.modelId) }
    else if searchType = "Datasets" then
      api.datasets.map fun d =>
        { id := some d.id, author := some d.author,
          downloads := some d.downloads,
          link := some ("https://huggingface.co/datasets/" ++ d.id) }
    else if searchType = "Spaces" then
      api.spaces.map fun s =>
        { id := some s.id, author := some s.author,
          link := some ("https://huggingface.co/spaces/" ++ s.id) }
    else []
  numberFrom 1 data

/-- README companion link derivation of `format_link` (app.py line 30):
`readme_link = f"{link}/blob/main/README.md"`. -/
def readme_link (link : String) : String :=
  link ++ "/blob/main/README.md"

/-- The `item_types` dict of the aggregate, initialized to
`{"Models": 0, "Datasets": 0, "Spaces": 0}`; all three keys are always
present by construction. -/
structure ItemTypes where
  Models : Nat
  Datasets : Nat
  Spaces : Nat
deriving DecidableEq, Repr

/-- The aggregate report returned by `SwarmyTime`. -/
structure AggregateReport where
  total_items : Nat
  unique_authors : Nat
  total_downloads : Nat
  item_types : ItemTypes
deriving DecidableEq, Repr

/-- Intermediate state of the `SwarmyTime` loop: the `aggregated` dict while
`unique_authors` is still the Python set of author values (modelled as a
duplicate-free list). -/
structure AggState where
  total_items : Nat
  unique_authors_set : List String
  total_downloads : Nat
  item_types : ItemTypes
deriving DecidableEq, Repr

/-- Python `set.add`: insert the value unless already present. -/
def pySetInsert (s : List String) (a : String) : List String :=
  if a ∈ s then s else a :: s

/-- One iteration of the `SwarmyTime` loop (app.py lines 94-103): add the
author (defaulted to "Unknown"), add the downloads (defaulted to 0), and
increment the `item_types` bucket chosen by the `if "modelId" in item /
elif "dataset" in item.get("id", "") / else` chain. -/
def aggStep (acc : AggState) (item : Item) : AggState :=
  { acc with
    unique_authors_set := pySetInsert acc.unique_authors_set (item.author.getD "Unknown"),
    total_downloads := acc.total_downloads + item.downloads.getD 0,
    item_types :=
      if item.modelId.isSome then
        { acc.item_types with Models := acc.item_types.Models + 1 }
      else if pyIn "dataset" (item.id.getD "") then
        { acc.item_types with Datasets := acc.item_types.Datasets + 1 }
      else
        { acc.item_types with Spaces := acc.item_types.Spaces + 1 } }

/-- The aggregator `SwarmyTime` (app.py lines 80-107): starts from
`total_items = len(data)`, an empty author set, zero downloads and all-zero
buckets, runs the loop over the records, then replaces the author set by
its cardinality. -/
def SwarmyTime (data : List Item) : AggregateReport :=
  let st := data.foldl aggStep
    { total_items := data.length, unique_authors_set := [],
      total_downloads := 0, item_types := ⟨0, 0, 0⟩ }
  { total_items := st.total_items,
    unique_authors := st.unique_authors_set.length,
    total_downloads := st.total_downloads,
    item_types := st.item_types }

/-- The bucket the `SwarmyTime` classification chain assigns to a record:
`Models` if the dict has a `modelId` key, else `Datasets` if the id value
(defaulted to "") contains the substring "dataset", else `Spaces`. -/
def classify (item : Item) : Kind :=
  if item.modelId.isSome then Kind.Models
  else if pyIn "dataset" (item.id.getD "") then Kind.Datasets
  else Kind.Spaces

/-- Number of records of `data` the classification chain sends to bucket `k`. -/
def kindCount (k : Kind) (data : List Item) : Nat :=
  data.countP fun i => decide (classify i = k)

/-- The row-selection callback `load_metadata` (app.py lines 57-78). The
external metadata lookups are parameters: `modelCard` models
`ModelCard.load` inside its `try/except` (an `Except.error` is the caught
exception's message), `datasetInfo` and `spaceInfo` model the `HfApi`
info calls. `df` is the result table (`none` models a `None` dataframe)
and `evtIndex` is `evt.index[0]`. -/
def load_metadata (modelCard : String → Except String String)
    (datasetInfo spaceInfo : String → String)
    (evtIndex : Nat) (df : Option (List Item)) (searchType : String) : String :=
  match df with
  | none => ""
  | some rows =>
    if h : rows ≠ [] ∧ evtIndex < rows.length then
      let item_id := (rows.get ⟨evtIndex, h.2⟩).id.getD ""
      if searchType = "Models" then
        match modelCard item_id with
        | Except.ok card => card
        | Except.error e => "Error loading model card: " ++ e
      else if searchType = "Datasets" then datasetInfo item_id
      else if searchType = "Spaces" then spaceInfo item_id
      else ""
    else ""

/-- The Normalizer's fail-fast rule as §4.1 of the spec words it: a batch in
which some item lacks the required id is rejected whole with a
`MalformedRecord` error, producing no partial output; otherwise the batch
passes. This definition follows the spec's words for comparison with the
code, which has no counterpart to this check anywhere. -/
def specNormalizerCheck (data : List Item) : Except String (List Item) :=
  if data.any fun i => i.id.isNone then Except.error "MalformedRecord"
  else Except.ok data

/-- The Aggregator's unknown-kind rule as §7 of the spec words it: given
records tagged with their kind, a tag outside the three known kinds fails
with an `InvalidKind` error instead of defaulting; otherwise the untagged
records are aggregated. This definition follows the spec's words for
comparison with the code, which has no counterpart to this check. -/
def specAggregatorCheck (tagged : List (String × Item)) : Except String AggregateReport :=
  if tagged.any fun p => !(p.1 == "Models" || p.1 == "Datasets" || p.1 == "Spaces") then
    Except.error "InvalidKind"
  else Except.ok (SwarmyTime (tagged.map Prod.snd))

/-! ### Helper lemmas about the aggregation loop -/

/-- Incrementing one bucket of `item_types`, by kind. -/
def bumpKind (t : ItemTypes) : Kind → ItemTypes
  | Kind.Models => { t with Models := t.Models + 1 }
  | Kind.Datasets => { t with Datasets := t.Datasets + 1 }
  | Kind.Spaces => { t with Spaces := t.Spaces + 1 }

lemma aggStep_total_items (acc : AggState) (i : Item) :
    (aggStep acc i).total_items = acc.total_items := rfl

lemma foldl_aggStep_total_items (data : List Item) (acc : AggState) :
    (data.foldl aggStep acc).total_items = acc.total_items := by
  induction data generalizing acc with
  | nil => rfl
  | cons i t ih => simpa using ih (aggStep acc i)

lemma aggStep_item_types (acc : AggState) (i : Item) :
    (aggStep acc i).item_types = bumpKind acc.item_types (classify i) := by
  by_cases h1 : i.modelId.isSome <;>
    by_cases h2 : pyIn "dataset" (i.id.getD "") <;>
      simp [aggStep, classify, bumpKind, h1, h2]

lemma foldl_aggStep_item_types (data : List Item) (acc : AggState) :
    (data.foldl aggStep acc).item_types =
      ⟨acc.item_types.Models + kindCount Kind.Models data,
       acc.item_types.Datasets + kindCount Kind.Datasets data,
       acc.item_types.Spaces + kindCount Kind.Spaces data⟩ := by
  induction data generalizing acc with
  | nil => simp [kindCount]
  | cons i t ih =>
    rw [List.foldl_cons, ih (aggStep acc i)]
    simp only [kindCount, List.countP_cons, aggStep_item_types]
    rcases h : classify i <;> simp [bumpKind, h] <;> omega

lemma kindCount_partition (data : List Item) :
    kindCount Kind.Models data + kindCount Kind.Datasets data +
      kindCount Kind.Spaces data = data.length := by
  induction data with
  | nil => rfl
  | cons i t ih =>
    simp only [kindCount, List.countP_cons, List.length_cons] at *
    rcases h : classify i <;> simp [h] <;> omega

lemma foldl_aggStep_downloads (data : List Item) (acc : AggState) :
    (data.foldl aggStep acc).total_downloads =
      acc.total_downloads + (data.map fun i => i.downloads.getD 0).sum := by
  induction data generalizing acc with
  | nil => simp
  | cons i t ih =>
    rw [List.foldl_cons, ih (aggStep acc i)]
    simp [aggStep, Nat.add_assoc]

lemma foldl_aggStep_authors (data : List Item) (acc : AggState) :
    (data.foldl aggStep acc).unique_authors_set =
      (data.map fun i => i.author.getD "Unknown").foldl pySetInsert
        acc.unique_authors_set := by
  induction data generalizing acc with
  | nil => rfl
  | cons i t ih =>
    rw [List.foldl_cons, ih (aggStep acc i)]
    simp [aggStep]

lemma pySetInsert_nodup {s : List String} (a : String) (h : s.Nodup) :
    (pySetInsert s a).Nodup := by
  unfold pySetInsert
  split
  · exact h
  · exact List.nodup_cons.mpr ⟨by assumption, h⟩

lemma pySetInsert_toFinset (s : List String) (a : String) :
    (pySetInsert s a).toFinset = insert a s.toFinset := by
  unfold pySetInsert
  split
  · rw [Finset.insert_eq_self.mpr (List.mem_toFinset.mpr (by assumption))]
  · simp

lemma foldl_pySetInsert_nodup (l : List String) (s : List String) (h : s.Nodup) :
    (l.foldl pySetInsert s).Nodup := by
  induction l generalizing s with
  | nil => exact h
  | cons a t ih => exact ih (pySetInsert s a) (pySetInsert_nodup a h)

lemma foldl_pySetInsert_toFinset (l : List String) (s : List String) :
    (l.foldl pySetInsert s).toFinset = s.toFinset ∪ l.toFinset := by
  induction l generalizing s with
  | nil => simp
  | cons a t ih =>
    rw [List.foldl_cons, ih (pySetInsert s a), pySetInsert_toFinset]
    simp [Finset.insert_union, Finset.union_insert]

lemma foldl_pySetInsert_length (l : List String) :
    (l.foldl pySetInsert []).length = l.dedup.length := by
  have hn := foldl_pySetInsert_nodup l [] (by simp)
  calc (l.foldl pySetInsert []).length
      = (l.foldl pySetInsert []).toFinset.card :=
        (List.toFinset_card_of_nodup hn).symm
    _ = (([] : List String).toFinset ∪ l.toFinset).card := by
        rw [foldl_pySetInsert_toFinset]
    _ = l.toFinset.card := by simp
    _ = l.dedup.length := List.card_toFinset l

/-! ### Projections of `SwarmyTime` in closed form -/

lemma SwarmyTime_total_items_eq (data : List Item) :
    (SwarmyTime data).total_items = data.length := by
  have h := foldl_aggStep_total_items data
    ⟨data.length, [], 0, ⟨0, 0, 0⟩⟩
  simpa [SwarmyTime] using h

lemma SwarmyTime_item_types_eq (data : List Item) :
    (SwarmyTime data).item_types =
      ⟨kindCount Kind.Models data, kindCount Kind.Datasets data,
       kindCount Kind.Spaces data⟩ := by
  have h := foldl_aggStep_item_types data
    ⟨data.length, [], 0, ⟨0, 0, 0⟩⟩
  simpa [SwarmyTime] using h

lemma SwarmyTime_downloads_eq (data : List Item) :
    (SwarmyTime data).total_downloads =
      (data.map fun i => i.downloads.getD 0).sum := by
  have h := foldl_aggStep_downloads data
    ⟨data.length, [], 0, ⟨0, 0, 0⟩⟩
  simpa [SwarmyTime] using h

lemma SwarmyTime_authors_eq (data : List Item) :
    (SwarmyTime data).unique_authors =
      ((data.map fun i => i.author.getD "Unknown").dedup).length := by
  have h := foldl_aggStep_authors data
    ⟨data.length, [], 0, ⟨0, 0, 0⟩⟩
  have h2 := foldl_pySetInsert_length (data.map fun i => i.author.getD "Unknown")
  have h3 : (SwarmyTime data).unique_authors =
      (data.foldl aggStep ⟨data.length, [], 0, ⟨0, 0, 0⟩⟩).unique_authors_set.length := rfl
  rw [h3, h, h2]

/-! ### Helper lemmas about the normalizer -/

lemma numberFrom_length (k : Nat) (data : List Item) :
    (numberFrom k data).length = data.length := by
  induction data generalizing k with
  | nil => rfl
  | cons x xs ih => simp [numberFrom, ih]

lemma numberFrom_map_number (k : Nat) (data : List Item) :
    (numberFrom k data).map (fun r => r.number) =
      (List.range data.length).map fun j => some (k + j) := by
  induction data generalizing k with
  | nil => rfl
  | cons x xs ih =>
    have hf : ((fun j => some (k + j)) ∘ Nat.succ) = fun j => some (k + 1 + j) := by
      funext j
      simp [Function.comp]
      omega
    simp only [numberFrom, List.map_cons, ih (k + 1), List.length_cons,
      List.range_succ_eq_map, List.map_map, hf]
    simp

lemma numberFrom_map_link (k : Nat) (data : List Item) :
    (numberFrom k data).map (fun r => r.link) = data.map fun r => r.link := by
  induction data generalizing k with
  | nil => rfl
  | cons x xs ih => simp [numberFrom, ih]

lemma search_hub_models_eq (api : HfApi) (q : String) :
    search_hub api q "Models" = numberFrom 1 (api.models.map fun m =>
      { id := some m.modelId, author := some m.author,
        downloads := some m.downloads,
        link := some ("https://huggingface.co/" ++ m.modelId) }) := rfl

lemma search_hub_datasets_eq (api : HfApi) (q : String) :
    search_hub api q "Datasets" = numberFrom 1 (api.datasets.map fun d =>
      { id := some d.id, author := some d.author,
        downloads := some d.downloads,
        link := some ("https://huggingface.co/datasets/" ++ d.id) }) := rfl

lemma search_hub_spaces_eq (api : HfApi) (q : String) :
    search_hub api q "Spaces" = numberFrom 1 (api.spaces.map fun s =>
      { id := some s.id, author := some s.author,
        link := some ("https://huggingface.co/spaces/" ++ s.id) }) := rfl

/-! ### The claims -/

/-- C1 (counterexample to the claim as stated): a single record whose kind is
Models — it is the normalization of a Models search result — does not
increment the Models bucket: the classification re-derives a kind from
the dict (the `modelId` key that `search_hub` never writes, then a
substring test on the id), so the record lands in the Spaces bucket and
`item_types` is `{Models: 0, Datasets: 0, Spaces: 1}` instead of
`{Models: 1, Datasets: 0, Spaces: 0}`. -/
theorem C1_kind_tag_counterexample :
    (SwarmyTime (search_hub ⟨[⟨"bert", "alice", 5⟩], [], []⟩ "q" "Models")).item_types ≠
      ⟨1, 0, 0⟩ ∧
    (SwarmyTime (search_hub ⟨[⟨"bert", "alice", 5⟩], [], []⟩ "q" "Models")).item_types =
      ⟨0, 0, 1⟩ := by
  decide

/-- C1 (amended): the Aggregator's `item_types` maps each bucket to the number
of records the code's heuristic sends there — Models if the record has a
`modelId` key, else Datasets if its id contains the substring "dataset",
else Spaces — and all three keys are present in the output (the
`ItemTypes` structure always carries all three fields) even when 0. -/
theorem C1_item_types_heuristic_tally (data : List Item) :
    (SwarmyTime data).item_types =
      ⟨kindCount Kind.Models data, kindCount Kind.Datasets data,
       kindCount Kind.Spaces data⟩ :=
  SwarmyTime_item_types_eq data

/-- C2: for every input sequence, the sum of the three `item_types` buckets
equals `total_items`, because the if/elif/else chain classifies every
record into exactly one bucket. -/
theorem C2_sum_item_types_eq_total (data : List Item) :
    (SwarmyTime data).item_types.Models + (SwarmyTime data).item_types.Datasets +
      (SwarmyTime data).item_types.Spaces = (SwarmyTime data).total_items := by
  rw [SwarmyTime_item_types_eq, SwarmyTime_total_items_eq]
  exact kindCount_partition data

/-- C3 (counterexample to the claim as stated): on a batch whose single item
has no id, the spec-side fail-fast check rejects with `MalformedRecord`
and no output, but the code produces a complete report: it defaults the
missing id to "" and counts the record as a Space. -/
theorem C3_counterexample :
    specNormalizerCheck [{}] = Except.error "MalformedRecord" ∧
    SwarmyTime [{}] = ⟨1, 1, 0, ⟨0, 0, 1⟩⟩ :=
  ⟨rfl, rfl⟩

/-- C3 (amended): a batch of items missing the id field is not rejected:
processing completes with `total_items` equal to the batch length, and
every such record (having no `modelId` key either) is counted as a
Space; no `MalformedRecord` error exists in the code. -/
theorem C3_missing_id_not_rejected (data : List Item)
    (h : ∀ i ∈ data, i.id = none ∧ i.modelId = none) :
    (SwarmyTime data).total_items = data.length ∧
    (SwarmyTime data).item_types = ⟨0, 0, data.length⟩ := by
  refine ⟨SwarmyTime_total_items_eq data, ?_⟩
  rw [SwarmyTime_item_types_eq]
  have hcls : ∀ i ∈ data, classify i = Kind.Spaces := by
    intro i hi
    obtain ⟨hid, hmid⟩ := h i hi
    have hemp : pyIn "dataset" "" = false := by decide
    simp [classify, hid, hmid, hemp]
  have hM : kindCount Kind.Models data = 0 := by
    simp only [kindCount, List.countP_eq_zero]
    intro i hi
    simp [hcls i hi]
  have hD : kindCount Kind.Datasets data = 0 := by
    simp only [kindCount, List.countP_eq_zero]
    intro i hi
    simp [hcls i hi]
  have hS : kindCount Kind.Spaces data = data.length := by
    simp only [kindCount]
    rw [List.countP_eq_length]
    intro i hi
    simp [hcls i hi]
  rw [hM, hD, hS]

/-- Witness for `C3_missing_id_not_rejected` at the one-record batch `[{}]`. -/
theorem C3_missing_id_not_rejected_witness :
    (SwarmyTime [({} : Item)]).total_items = [({} : Item)].length ∧
    (SwarmyTime [({} : Item)]).item_types = ⟨0, 0, [({} : Item)].length⟩ :=
  C3_missing_id_not_rejected [{}] (by decide)

/-- C4 (counterexample to the claim as stated): on a record tagged with the
unknown kind "Widgets", the spec-side check fails with `InvalidKind`, but
the code never fails: it silently classifies the record into the default
Spaces bucket and returns a complete report. -/
theorem C4_counterexample :
    specAggregatorCheck [("Widgets", { id := some "acme/widget", author := some "alice" })] =
      Except.error "InvalidKind" ∧
    SwarmyTime [{ id := some "acme/widget", author := some "alice" }] =
      ⟨1, 1, 0, ⟨0, 0, 1⟩⟩ :=
  ⟨rfl, rfl⟩

/-- C4 (amended): the Aggregator has no `InvalidKind` failure: a record that
matches neither the Models heuristic (a `modelId` key) nor the Datasets
heuristic (the substring "dataset" in its id) is silently classified
into the default Spaces bucket, incrementing it by exactly one. -/
theorem C4_unknown_kind_silent_space (i : Item) (data : List Item)
    (h1 : i.modelId = none) (h2 : pyIn "dataset" (i.id.getD "") = false) :
    classify i = Kind.Spaces ∧
    (SwarmyTime (data ++ [i])).item_types.Spaces =
      (SwarmyTime data).item_types.Spaces + 1 := by
  have hc : classify i = Kind.Spaces := by simp [classify, h1, h2]
  refine ⟨hc, ?_⟩
  rw [SwarmyTime_item_types_eq, SwarmyTime_item_types_eq]
  simp only [kindCount, List.countP_append, List.countP_cons, List.countP_nil]
  simp [hc]

/-- Witness for `C4_unknown_kind_silent_space` at the record with id
"acme/widget" appended to the empty sequence. -/
theorem C4_unknown_kind_silent_space_witness :
    classify { id := some "acme/widget" } = Kind.Spaces ∧
    (SwarmyTime ([] ++ [{ id := some "acme/widget" }])).item_types.Spaces =
      (SwarmyTime []).item_types.Spaces + 1 :=
  C4_unknown_kind_silent_space { id := some "acme/widget" } [] rfl (by decide)

/-- C5: `unique_authors` is the number of distinct author values of the
sequence, a record with an absent author field being normalized to the
sentinel "Unknown"; in particular two records both missing their author
count as a single unique author. -/
theorem C5_unique_authors_distinct (data : List Item) :
    (SwarmyTime data).unique_authors =
      ((data.map fun i => i.author.getD "Unknown").dedup).length ∧
    (SwarmyTime [({} : Item), {}]).unique_authors = 1 :=
  ⟨SwarmyTime_authors_eq data, by decide⟩

/-- C6: `total_downloads` is the sum of the records' downloads values, an
absent downloads field contributing 0 (the aggregation step is a total
function, so no record can make it fail). -/
theorem C6_total_downloads_sum (data : List Item) :
    (SwarmyTime data).total_downloads =
      (data.map fun i => i.downloads.getD 0).sum :=
  SwarmyTime_downloads_eq data

/-- C7: link derivation is a pure function of (kind, id): every Model record
links to `https://huggingface.co/<id>`, every Dataset record to
`https://huggingface.co/datasets/<id>`, every Space record to
`https://huggingface.co/spaces/<id>`, and the README companion link
appends `/blob/main/README.md` to the primary link, as in the spec's
`acme/widget` dataset scenario. -/
theorem C7_link_derivation (api : HfApi) (query : String) :
    ((search_hub api query "Models").map fun r => r.link) =
      (api.models.map fun m => some ("https://huggingface.co/" ++ m.modelId)) ∧
    ((search_hub api query "Datasets").map fun r => r.link) =
      (api.datasets.map fun d => some ("https://huggingface.co/datasets/" ++ d.id)) ∧
    ((search_hub api query "Spaces").map fun r => r.link) =
      (api.spaces.map fun s => some ("https://huggingface.co/spaces/" ++ s.id)) ∧
    (∀ link : String, readme_link link = link ++ "/blob/main/README.md") ∧
    readme_link "https://huggingface.co/datasets/acme/widget" =
      "https://huggingface.co/datasets/acme/widget/blob/main/README.md" := by
  refine ⟨?_, ?_, ?_, fun _ => rfl, rfl⟩
  · rw [search_hub_models_eq, numberFrom_map_link, List.map_map]
    rfl
  · rw [search_hub_datasets_eq, numberFrom_map_link, List.map_map]
    rfl
  · rw [search_hub_spaces_eq, numberFrom_map_link, List.map_map]
    rfl

/-- C8: the normalizer returns as many records as the chosen category's raw
result list has, and the `number` field of the output is exactly
1, 2, ..., n in input order, for every search type. -/
theorem C8_normalizer_length_and_index (api : HfApi) (query searchType : String) :
    (search_hub api query "Models").length = api.models.length ∧
    (search_hub api query "Datasets").length = api.datasets.length ∧
    (search_hub api query "Spaces").length = api.spaces.length ∧
    ((search_hub api query searchType).map fun r => r.number) =
      (List.range (search_hub api query searchType).length).map fun j => some (j + 1) := by
  have key : ∀ d : List Item, ((numberFrom 1 d).map fun r => r.number) =
      (List.range (numberFrom 1 d).length).map fun j => some (j + 1) := by
    intro d
    rw [numberFrom_length, numberFrom_map_number]
    simp [Nat.add_comm]
  refine ⟨?_, ?_, ?_, key _⟩
  · rw [search_hub_models_eq, numberFrom_length, List.length_map]
  · rw [search_hub_datasets_eq, numberFrom_length, List.length_map]
  · rw [search_hub_spaces_eq, numberFrom_length, List.length_map]

/-- C9: the empty sequence aggregates to the all-zero report, with all three
`item_types` keys present and 0, and no error. -/
theorem C9_empty_report : SwarmyTime [] = ⟨0, 0, 0, ⟨0, 0, 0⟩⟩ := rfl

/-- C10: the metadata-lookup callback returns the empty string whenever the
result table is absent, empty, or the selected row index is not strictly
below the table length; a row is read only inside the guard that
establishes the bound. -/
theorem C10_selection_guard (modelCard : String → Except String String)
    (datasetInfo spaceInfo : String → String) (evtIndex : Nat)
    (df : Option (List Item)) (searchType : String)
    (h : df = none ∨ df = some [] ∨
      ∃ rows, df = some rows ∧ rows.length ≤ evtIndex) :
    load_metadata modelCard datasetInfo spaceInfo evtIndex df searchType = "" := by
  rcases h with h | h | ⟨rows, h, hlen⟩ <;> subst h
  · rfl
  · rfl
  · simp only [load_metadata]
    rw [dif_neg]
    rintro ⟨-, hlt⟩
    omega

/-- Witness for `C10_selection_guard` at an absent table. -/
theorem C10_selection_guard_witness :
    load_metadata (fun _ => Except.ok "") (fun _ => "") (fun _ => "")
      0 none "Models" = "" :=
  C10_selection_guard (fun _ => Except.ok "") (fun _ => "") (fun _ => "")
    0 none "Models" (Or.inl rfl)
